import Mathlib

/-!
Verification of the discharge-flow task engine: task generation from a
reference discharge event, pure status derivation from time windows,
guarded completion transitions, collection operations, and the storage
serialization round-trip.

JavaScript `Date` values are modelled as `Option Int` epoch milliseconds,
`none` standing for an Invalid Date (NaN): comparisons with NaN are false
and arithmetic propagates it. The calendar arithmetic below reproduces
the proleptic-Gregorian conversions performed by the runtime
(`toISOString`, ISO date-string parsing, `new Date(y, m, d)`).
-/

namespace DischargeFlow

/-- Days preceding (March-based) year-of-era `yoe` within a 400-year Gregorian era. -/
def eraDaysBeforeYear (yoe : Nat) : Nat :=
  365 * yoe + yoe / 4 - yoe / 100

/-- Year-of-era (0..399) containing day-of-era `doe` (0..146096). -/
def civilYoe (doe : Nat) : Nat :=
  if doe / 365 ≤ 399 ∧ eraDaysBeforeYear (doe / 365) ≤ doe then doe / 365 else doe / 365 - 1

/-- Cumulative days before March-based month `mp` (0 = March .. 11 = February):
0, 31, 61, 92, 122, 153, 184, 214, 245, 275, 306, 337. -/
def cumDaysBeforeMp (mp : Nat) : Nat := (153 * mp + 2) / 5

/-- March-based month index (0..11) containing day-of-year `doy` (0..365). -/
def civilMp (doy : Nat) : Nat := (5 * doy + 2) / 153

/-- Era index (multiple of 400 years) of day `z` counted from 1970-01-01. -/
def civilEra (z : Int) : Int := (z + 719468) / 146097

/-- Day-of-era (0..146096) of day `z`. -/
def civilDoe (z : Int) : Nat := (z + 719468 - civilEra z * 146097).toNat

/-- (March-based) day-of-year from day-of-era. -/
def civilDoy (doe : Nat) : Nat := doe - eraDaysBeforeYear (civilYoe doe)

/-- Calendar month (1..12) from (March-based) day-of-year. -/
def civilMonth (doy : Nat) : Nat :=
  if civilMp doy < 10 then civilMp doy + 3 else civilMp doy - 9

/-- Day-of-month (1..31) from (March-based) day-of-year. -/
def civilDay (doy : Nat) : Nat := doy - cumDaysBeforeMp (civilMp doy) + 1

/-- Civil year of day `z`. -/
def civilYear (z : Int) : Int :=
  (civilYoe (civilDoe z) : Int) + civilEra z * 400 +
    (if civilMonth (civilDoy (civilDoe z)) ≤ 2 then 1 else 0)

/-- Proleptic-Gregorian civil date (year, month, day) of day `z` counted from 1970-01-01. -/
def civil_from_days (z : Int) : Int × Nat × Nat :=
  (civilYear z, civilMonth (civilDoy (civilDoe z)), civilDay (civilDoy (civilDoe z)))

/-- Days counted from 1970-01-01 of the civil date (y, m, d). -/
def days_from_civil (y : Int) (m d : Nat) : Int :=
  let y2 : Int := if m ≤ 2 then y - 1 else y
  let era : Int := y2 / 400
  let yoe : Nat := (y2 - era * 400).toNat
  let mp : Nat := if 3 ≤ m then m - 3 else m + 9
  let doy : Nat := cumDaysBeforeMp mp + (d - 1)
  let doe : Nat := eraDaysBeforeYear yoe + doy
  era * 146097 + (doe : Int) - 719468

/-- Gregorian leap-year test (proleptic, applied to the civil year). -/
def isLeapYear (y : Int) : Prop :=
  y % 4 = 0 ∧ (y % 100 ≠ 0 ∨ y % 400 = 0)

instance (y : Int) : Decidable (isLeapYear y) := by
  unfold isLeapYear; infer_instance

/-- Length of calendar month `m` (1..12) in civil year `y`. -/
def daysInMonth (y : Int) (m : Nat) : Nat :=
  if m = 2 then (if isLeapYear y then 29 else 28)
  else if m = 4 ∨ m = 6 ∨ m = 9 ∨ m = 11 then 30 else 31

theorem civilDoe_spec (z : Int) :
    (civilDoe z : Int) = z + 719468 - civilEra z * 146097 ∧ civilDoe z ≤ 146096 := by
  unfold civilDoe civilEra
  omega

theorem civilYoe_spec (doe : Nat) (h : doe ≤ 146096) :
    civilYoe doe ≤ 399 ∧ eraDaysBeforeYear (civilYoe doe) ≤ doe ∧
    civilDoy doe ≤ 365 ∧
    (civilDoy doe ≤ 364 ∨
      ((civilYoe doe + 1) % 4 = 0 ∧ ((civilYoe doe + 1) % 100 ≠ 0 ∨ civilYoe doe + 1 = 400))) := by
  unfold civilDoy civilYoe eraDaysBeforeYear
  split
  · omega
  · rcases Nat.eq_zero_or_pos (doe / 365) with h0 | h1
    · omega
    · obtain ⟨k, hk⟩ : ∃ k, doe / 365 = k + 1 := ⟨doe / 365 - 1, by omega⟩
      rw [hk]
      simp only [Nat.add_sub_cancel]
      have h4 : (k + 1) % 4 = 0 ∨ (k + 1) % 4 = 1 ∨ (k + 1) % 4 = 2 ∨ (k + 1) % 4 = 3 := by
        omega
      have h100 : (k + 1) % 100 = 0 ∨ (k + 1) % 100 ≠ 0 := by omega
      rcases h4 with h4 | h4 | h4 | h4 <;> rcases h100 with h100 | h100 <;> omega

theorem civilMp_spec (doy : Nat) (h : doy ≤ 365) :
    civilMp doy ≤ 11 ∧ cumDaysBeforeMp (civilMp doy) ≤ doy ∧
    1 ≤ civilMonth doy ∧ civilMonth doy ≤ 12 ∧
    (civilMp doy < 10 → civilMonth doy = civilMp doy + 3) ∧
    (10 ≤ civilMp doy → civilMonth doy + 9 = civilMp doy) ∧
    1 ≤ civilDay doy ∧
    civilDay doy + cumDaysBeforeMp (civilMp doy) = doy + 1 ∧
    (civilMp doy = 11 → (civilDay doy ≤ 29 ∧ (civilDay doy = 29 → doy = 365))) ∧
    (civilMonth doy = 2 → civilMp doy = 11) ∧
    (civilMonth doy = 2 → civilDay doy ≤ 29) ∧
    (civilMonth doy = 4 ∨ civilMonth doy = 6 ∨ civilMonth doy = 9 ∨ civilMonth doy = 11 →
      civilDay doy ≤ 30) ∧
    civilDay doy ≤ 31 := by
  unfold civilDay civilMonth civilMp cumDaysBeforeMp
  by_cases hm : (5 * doy + 2) / 153 < 10
  · simp only [if_pos hm]
    refine ⟨?_, ?_, ?_, ?_, ?_, ?_, ?_, ?_, ?_, ?_, ?_, ?_, ?_⟩ <;>
      first
        | (intros; trivial)
        | omega
  · simp only [if_neg hm]
    refine ⟨?_, ?_, ?_, ?_, ?_, ?_, ?_, ?_, ?_, ?_, ?_, ?_, ?_⟩ <;>
      first
        | (intros; trivial)
        | omega

theorem days_from_civil_eq (era : Int) (yoe m d : Nat) (hyoe : yoe ≤ 399)
    (hm1 : 1 ≤ m) (hm12 : m ≤ 12) :
    days_from_civil ((yoe : Int) + era * 400 + (if m ≤ 2 then 1 else 0)) m d =
      era * 146097 +
        ((eraDaysBeforeYear yoe +
          (cumDaysBeforeMp (if 3 ≤ m then m - 3 else m + 9) + (d - 1)) : Nat) : Int) -
        719468 := by
  simp only [days_from_civil]
  by_cases hm : m ≤ 2
  · simp only [if_pos hm, if_neg (show ¬ 3 ≤ m by omega)]
    unfold eraDaysBeforeYear
    omega
  · simp only [if_neg hm, if_pos (show 3 ≤ m by omega)]
    unfold eraDaysBeforeYear
    omega

theorem civil_days_roundtrip (z : Int) :
    days_from_civil (civil_from_days z).1 (civil_from_days z).2.1 (civil_from_days z).2.2 = z ∧
    1 ≤ (civil_from_days z).2.1 ∧ (civil_from_days z).2.1 ≤ 12 ∧
    1 ≤ (civil_from_days z).2.2 ∧
    (civil_from_days z).2.2 ≤ daysInMonth (civil_from_days z).1 (civil_from_days z).2.1 := by
  obtain ⟨hdoe_eq, hdoe_le⟩ := civilDoe_spec z
  obtain ⟨hy1, hy2, hy3, hy4⟩ := civilYoe_spec (civilDoe z) hdoe_le
  obtain ⟨m1, m2, m3, m4, m5, m6, m7, m8, m9, m10, m11, m12, m13⟩ :=
    civilMp_spec (civilDoy (civilDoe z)) hy3
  have hdoy : civilDoy (civilDoe z) =
      civilDoe z - eraDaysBeforeYear (civilYoe (civilDoe z)) := rfl
  simp only [civil_from_days, civilYear]
  rw [days_from_civil_eq (civilEra z) (civilYoe (civilDoe z))
    (civilMonth (civilDoy (civilDoe z))) (civilDay (civilDoy (civilDoe z))) hy1 m3 m4]
  refine ⟨?_, m3, m4, m7, ?_⟩
  · by_cases hmp : civilMp (civilDoy (civilDoe z)) < 10
    · rw [m5 hmp]
      simp only [if_pos (show 3 ≤ civilMp (civilDoy (civilDoe z)) + 3 by omega),
        Nat.add_sub_cancel]
      omega
    · have hmle : ¬ 3 ≤ civilMonth (civilDoy (civilDoe z)) := by omega
      rw [if_neg hmle, m6 (by omega)]
      omega
  · unfold daysInMonth isLeapYear
    split_ifs <;> omega

/-- Calendar-field decomposition of an epoch-millisecond timestamp: the
information content of the ISO-8601 string produced by the runtime. -/
structure DateFields where
  year : Int
  month : Nat
  day : Nat
  hour : Nat
  minute : Nat
  second : Nat
  msec : Nat
deriving DecidableEq, Repr

/-- Decompose epoch milliseconds into ISO-8601 calendar fields (toISOString). -/
def toISOFields (t : Int) : DateFields :=
  let days : Int := t / 86400000
  let r : Nat := (t % 86400000).toNat
  let c := civil_from_days days
  { year := c.1, month := c.2.1, day := c.2.2,
    hour := r / 3600000, minute := r / 60000 % 60, second := r / 1000 % 60, msec := r % 1000 }

/-- Field-range validity as checked by the runtime date-string parser. -/
def fieldsValid (f : DateFields) : Prop :=
  1 ≤ f.month ∧ f.month ≤ 12 ∧ 1 ≤ f.day ∧ f.day ≤ daysInMonth f.year f.month ∧
  (f.hour ≤ 23 ∨ (f.hour = 24 ∧ f.minute = 0 ∧ f.second = 0 ∧ f.msec = 0)) ∧
  f.minute ≤ 59 ∧ f.second ≤ 59 ∧ f.msec ≤ 999

instance (f : DateFields) : Decidable (fieldsValid f) := by
  unfold fieldsValid; infer_instance

/-- Epoch milliseconds denoted by a field decomposition (MakeDate). -/
def msOfFields (f : DateFields) : Int :=
  days_from_civil f.year f.month f.day * 86400000 +
    ((f.hour * 3600000 + f.minute * 60000 + f.second * 1000 + f.msec : Nat) : Int)

/-- TimeClip: timestamps beyond ±8.64e15 ms denote an Invalid Date. -/
def jsTimeClip (t : Int) : Option Int :=
  if t.natAbs ≤ 8640000000000000 then some t else none

/-- Date value denoted by parsed ISO-8601 calendar fields (new Date on an
ISO string): Invalid when fields are out of range or the result exceeds
the representable range. -/
def dateFromFields (f : DateFields) : Option Int :=
  if fieldsValid f then jsTimeClip (msOfFields f) else none

theorem toISOFields_roundtrip (t : Int) (h : t.natAbs ≤ 8640000000000000) :
    dateFromFields (toISOFields t) = some t := by
  obtain ⟨hrt, hm1, hm12, hd1, hdm⟩ := civil_days_roundtrip (t / 86400000)
  have hr : (t % 86400000).toNat < 86400000 := by omega
  have hvalid : fieldsValid (toISOFields t) := by
    unfold fieldsValid toISOFields
    simp only
    exact ⟨hm1, hm12, hd1, hdm, Or.inl (by omega), by omega, by omega, by omega⟩
  have hms : msOfFields (toISOFields t) = t := by
    unfold msOfFields toISOFields
    simp only
    rw [hrt]
    omega
  unfold dateFromFields
  rw [if_pos hvalid, hms]
  unfold jsTimeClip
  rw [if_pos (by omega)]

/-! ## JavaScript date primitives -/

/-- A JS `Date` value: epoch milliseconds, or `none` for an Invalid Date (NaN). -/
abbrev JSDate := Option Int

/-- JS `<` on two dates (via valueOf): false whenever either side is NaN. -/
def jsLt : JSDate → JSDate → Bool
  | some a, some b => decide (a < b)
  | _, _ => false

/-- JS `>` on two dates: false whenever either side is NaN. -/
def jsGt : JSDate → JSDate → Bool
  | some a, some b => decide (a > b)
  | _, _ => false

/-- JS `<=` on two dates: false whenever either side is NaN. -/
def jsLe : JSDate → JSDate → Bool
  | some a, some b => decide (a ≤ b)
  | _, _ => false

/-- `new Date(d.getTime() + k)`: NaN propagates, and the result is clipped
to the representable range. -/
def jsAddMs (d : JSDate) (k : Int) : JSDate :=
  match d with
  | some t => jsTimeClip (t + k)
  | none => none

/-- `a.getTime() - b.getTime()` as a number: `none` is NaN. -/
def jsDiff (a b : JSDate) : Option Int :=
  match a, b with
  | some x, some y => some (x - y)
  | _, _ => none

/-- `date.toISOString()`: calendar fields of the timestamp, or `none` when
the call throws (Invalid Date). -/
def jsToISOString (d : JSDate) : Option DateFields :=
  match d with
  | some t => if t.natAbs ≤ 8640000000000000 then some (toISOFields t) else none
  | none => none

/-- Parse a date-time string of the ISO format `YYYY-MM-DDTHH:MM:SS`
(the only shape this codebase constructs); any other shape is an
Invalid Date. Field ranges are validated as by the runtime parser. -/
def parseJSDateTime (s : String) : JSDate :=
  match s.data with
  | [y1, y2, y3, y4, '-', mo1, mo2, '-', d1, d2, 'T', h1, h2, ':', mi1, mi2, ':', s1, s2] =>
    if y1.isDigit && y2.isDigit && y3.isDigit && y4.isDigit &&
       mo1.isDigit && mo2.isDigit && d1.isDigit && d2.isDigit &&
       h1.isDigit && h2.isDigit && mi1.isDigit && mi2.isDigit &&
       s1.isDigit && s2.isDigit then
      dateFromFields
        { year := ((1000 * (y1.toNat - 48) + 100 * (y2.toNat - 48) +
            10 * (y3.toNat - 48) + (y4.toNat - 48) : Nat) : Int)
          month := 10 * (mo1.toNat - 48) + (mo2.toNat - 48)
          day := 10 * (d1.toNat - 48) + (d2.toNat - 48)
          hour := 10 * (h1.toNat - 48) + (h2.toNat - 48)
          minute := 10 * (mi1.toNat - 48) + (mi2.toNat - 48)
          second := 10 * (s1.toNat - 48) + (s2.toNat - 48)
          msec := 0 }
    else none
  | _ => none

/-! ## Data model (src/shared and the task services) -/

/-- Task lifecycle status. -/
inductive TaskStatus where
  | pending
  | completed
  | overdue
  | upcoming
deriving DecidableEq

/-- The closed set of discharge task kinds. -/
inductive TaskType where
  | contact_patient
  | medication_reconciliation
  | followup_scheduling
  | facility_handoff
  | checkin_call
deriving DecidableEq

/-- A task. Timestamps are JS dates; optional fields default to absent. -/
structure Task where
  id : String
  patientId : String
  type : TaskType
  status : TaskStatus
  dueStart : JSDate
  dueEnd : JSDate
  completedAt : Option JSDate := none
  completedBy : Option String := none
  notes : Option String := none
deriving DecidableEq

/-- A patient record, restricted to the fields the task engine reads:
identifier, discharge date (YYYY-MM-DD), optional discharge time (HH:MM),
and the two classification attributes used by rule conditions. -/
structure Patient where
  patientId : String
  dischargeDate : String
  dischargeTime : Option String
  dischargeDisposition : String
  readmissionRiskScore : String
deriving DecidableEq

/-- A task generation rule (shared types): task kind, human-readable
label, window offsets in hours after discharge, and the applicability
predicate over a patient. -/
structure TaskRule where
  type : TaskType
  label : String
  windowStartHours : Nat
  windowEndHours : Nat
  condition : Patient → Bool

/-- The rule table `TASK_RULES` from the shared types (embedded with
`App.tsx`): contact_patient 0–24h (all patients),
medication_reconciliation 0–48h (all), followup_scheduling 0–48h (all),
facility_handoff 0–24h (skilled-nursing-facility dispositions only),
checkin_call 48–72h (High or Very High readmission risk only). -/
def TASK_RULES : List TaskRule :=
  [ { type := TaskType.contact_patient, label := "Contact Patient",
      windowStartHours := 0, windowEndHours := 24,
      condition := fun _ => true },
    { type := TaskType.medication_reconciliation, label := "Medication Reconciliation",
      windowStartHours := 0, windowEndHours := 48,
      condition := fun _ => true },
    { type := TaskType.followup_scheduling, label := "Confirm Followup Scheduling",
      windowStartHours := 0, windowEndHours := 48,
      condition := fun _ => true },
    { type := TaskType.facility_handoff, label := "Facility Handoff Confirmation",
      windowStartHours := 0, windowEndHours := 24,
      condition := fun patient => patient.dischargeDisposition == "Skilled nursing facility" },
    { type := TaskType.checkin_call, label := "48hr Check-in Call",
      windowStartHours := 48, windowEndHours := 72,
      condition := fun patient =>
        (["High", "Very High"] : List String).contains patient.readmissionRiskScore } ]

/-! ## Task generator (src/server/services/taskGenerator.ts) -/

/-- `getDischargeDateTime`: combine dischargeDate and dischargeTime
(defaulting to 00:00 when absent or empty) and parse the result. -/
def getDischargeDateTime (p : Patient) : JSDate :=
  let dateStr := p.dischargeDate
  let timeStr :=
    match p.dischargeTime with
    | some t => if t = "" then "00:00" else t
    | none => "00:00"
  parseJSDateTime (dateStr ++ "T" ++ timeStr ++ ":00")

/-- `generateTasksForPatient`: one task per satisfied rule, windows at the
discharge time plus the rule offsets in hours, initial status pending.
The impure unique-id generator is modelled by the explicit supply `mkId`
(one fresh id per generated-task index). -/
def generateTasksForPatient (p : Patient) (mkId : Nat → String) : List Task :=
  let dischargeDateTime := getDischargeDateTime p
  (TASK_RULES.filter (fun rule => rule.condition p)).enum.map (fun ir =>
    { id := mkId ir.1
      patientId := p.patientId
      type := ir.2.type
      status := TaskStatus.pending
      dueStart := jsAddMs dischargeDateTime ((ir.2.windowStartHours : Int) * 60 * 60 * 1000)
      dueEnd := jsAddMs dischargeDateTime ((ir.2.windowEndHours : Int) * 60 * 60 * 1000) })

/-- `generateTasksForPatients`: concatenation of per-patient generation in
input order; `mkId i j` is the fresh id of task j of patient i. -/
def generateTasksForPatients (ps : List Patient) (mkId : Nat → Nat → String) : List Task :=
  (ps.enum.map (fun ip => generateTasksForPatient ip.2 (mkId ip.1))).flatten

/-- `calculateTaskStatus`: completed is sticky; otherwise upcoming before
dueStart, overdue strictly after dueEnd, else pending. NaN windows make
both comparisons false, yielding pending. -/
def calculateTaskStatus (task : Task) (now : JSDate) : TaskStatus :=
  if task.status = TaskStatus.completed then TaskStatus.completed
  else if jsLt now task.dueStart then TaskStatus.upcoming
  else if jsGt now task.dueEnd then TaskStatus.overdue
  else TaskStatus.pending

/-- `isTaskOverdue`. -/
def isTaskOverdue (task : Task) (now : JSDate) : Bool :=
  calculateTaskStatus task now = TaskStatus.overdue

/-- `getTimeRemaining`: dueEnd minus now in milliseconds (NaN-propagating). -/
def getTimeRemaining (task : Task) (now : JSDate) : Option Int :=
  jsDiff task.dueEnd now

/-- Result shape of `getTimeRemainingFormatted`; numeric fields are `none`
when the underlying arithmetic is NaN. -/
structure TimeRemainingFormatted where
  hours : Option Int
  minutes : Option Int
  isOverdue : Bool
  totalMinutes : Option Int
deriving DecidableEq

/-- `getTimeRemainingFormatted`: absolute remaining duration floored to
whole minutes, split into hours and remainder minutes, with the overdue
flag from the signed value. -/
def getTimeRemainingFormatted (task : Task) (now : JSDate) : TimeRemainingFormatted :=
  match getTimeRemaining task now with
  | some remaining =>
    let totalMinutes : Int := |remaining| / (60 * 1000)
    { hours := some (totalMinutes / 60)
      minutes := some (totalMinutes % 60)
      isOverdue := decide (remaining < 0)
      totalMinutes := some totalMinutes }
  | none => { hours := none, minutes := none, isOverdue := false, totalMinutes := none }

/-- `updateTaskStatuses`: recompute every status at `now`. -/
def updateTaskStatuses (tasks : List Task) (now : JSDate) : List Task :=
  tasks.map (fun task => { task with status := calculateTaskStatus task now })

/-- `getOverdueTasks`. -/
def getOverdueTasks (tasks : List Task) (now : JSDate) : List Task :=
  tasks.filter (fun task => isTaskOverdue task now)

/-- `getPendingTasks`. -/
def getPendingTasks (tasks : List Task) (now : JSDate) : List Task :=
  tasks.filter (fun task => calculateTaskStatus task now = TaskStatus.pending)

/-- `getUpcomingTasks`. -/
def getUpcomingTasks (tasks : List Task) (now : JSDate) : List Task :=
  tasks.filter (fun task => calculateTaskStatus task now = TaskStatus.upcoming)

/-- `getTasksCompletedInRange`: completed tasks whose completedAt is
present and falls inside the closed range; an absent completedAt (or a
NaN one, or NaN bounds) fails the comparisons and is excluded. -/
def getTasksCompletedInRange (tasks : List Task) (startDate endDate : JSDate) : List Task :=
  tasks.filter (fun t =>
    if t.status ≠ TaskStatus.completed then false
    else
      match t.completedAt with
      | none => false
      | some completedAt => jsLe startDate completedAt && jsLe completedAt endDate)

/-- `getTasksCompletedToday`: local-day bounds from the calendar fields of
`now` (midnight to 23:59:59.999), delegating to the range query; an
invalid `now` produces invalid bounds. -/
def getTasksCompletedToday (tasks : List Task) (now : JSDate) : List Task :=
  match now with
  | some t =>
    let f := toISOFields t
    let startOfDay : Int := days_from_civil f.year f.month f.day * 86400000
    getTasksCompletedInRange tasks (jsTimeClip startOfDay) (jsTimeClip (startOfDay + 86399999))
  | none => getTasksCompletedInRange tasks none none

/-! ## Task state manager (guarded transitions, collection updates, storage) -/

/-- Result of a task completion operation. -/
structure TaskCompletionResult where
  success : Bool
  task : Option Task := none
  error : Option String := none
deriving DecidableEq

/-- Valid status transitions for tasks. -/
def VALID_TRANSITIONS : TaskStatus → List TaskStatus
  | TaskStatus.upcoming => [TaskStatus.pending, TaskStatus.overdue]
  | TaskStatus.pending => [TaskStatus.completed, TaskStatus.overdue]
  | TaskStatus.overdue => [TaskStatus.completed]
  | TaskStatus.completed => []

/-- `isValidTransition`. -/
def isValidTransition (fromStatus toStatus : TaskStatus) : Bool :=
  (VALID_TRANSITIONS fromStatus).contains toStatus

/-- `canCompleteTask`: the derived status is pending or overdue. -/
def canCompleteTask (task : Task) (now : JSDate) : Bool :=
  let currentStatus := calculateTaskStatus task now
  currentStatus = TaskStatus.pending ∨ currentStatus = TaskStatus.overdue

/-- `completeTask` (task state manager): guard on the derived status, then
return a completed copy with completedAt = now and the given completedBy. -/
def completeTask (task : Task) (completedBy : Option String) (now : JSDate) :
    TaskCompletionResult :=
  let currentStatus := calculateTaskStatus task now
  if currentStatus = TaskStatus.completed then
    { success := false, error := some "Task is already completed" }
  else if currentStatus = TaskStatus.upcoming then
    { success := false, error := some "Cannot complete a task before its window opens" }
  else
    { success := true,
      task := some { task with
        status := TaskStatus.completed, completedAt := some now, completedBy := completedBy } }

/-- `addTaskNotes`: unconditional note replacement. -/
def addTaskNotes (task : Task) (notes : String) : Task :=
  { task with notes := some notes }

/-- `findTaskById`. -/
def findTaskById (tasks : List Task) (taskId : String) : Option Task :=
  tasks.find? (fun t => t.id == taskId)

/-- `completeTaskInCollection`: locate by id, run the guarded completion,
and on success splice the completed task back at the same index; the
original collection is returned unchanged on any failure. -/
def completeTaskInCollection (tasks : List Task) (taskId : String)
    (completedBy : Option String) (now : JSDate) : List Task × TaskCompletionResult :=
  match tasks.findIdx? (fun t => t.id == taskId) with
  | none =>
    (tasks, { success := false, error := some ("Task with ID \x27" ++ taskId ++ "\x27 not found") })
  | some taskIndex =>
    match tasks[taskIndex]? with
    | none =>
      (tasks,
        { success := false, error := some ("Task with ID \x27" ++ taskId ++ "\x27 not found") })
    | some t =>
      let result := completeTask t completedBy now
      match result.task, result.success with
      | some completedTask, true => (tasks.set taskIndex completedTask, result)
      | _, _ => (tasks, result)

/-- `addNotesToTaskInCollection`: locate by id and replace the notes at the
same index; the original collection plus an error when the id is absent. -/
def addNotesToTaskInCollection (tasks : List Task) (taskId : String) (notes : String) :
    List Task × Bool × Option String :=
  match tasks.findIdx? (fun t => t.id == taskId) with
  | none => (tasks, false, some ("Task with ID \x27" ++ taskId ++ "\x27 not found"))
  | some taskIndex =>
    match tasks[taskIndex]? with
    | none => (tasks, false, some ("Task with ID \x27" ++ taskId ++ "\x27 not found"))
    | some t => (tasks.set taskIndex (addTaskNotes t notes), true, none)

/-- The stored (JSON) shape of a task: timestamps as ISO-8601 calendar
fields, all other fields verbatim; absent optional fields stay absent. -/
structure StoredTask where
  id : String
  patientId : String
  type : TaskType
  status : TaskStatus
  dueStart : DateFields
  dueEnd : DateFields
  completedAt : Option DateFields := none
  completedBy : Option String := none
  notes : Option String := none
deriving DecidableEq

/-- `serializeTasksForStorage`: convert every Date field to its ISO string;
`none` models the exception raised on an Invalid Date. -/
def serializeTasksForStorage (tasks : List Task) : Option (List StoredTask) :=
  tasks.mapM (fun task => do
    let ds ← jsToISOString task.dueStart
    let de ← jsToISOString task.dueEnd
    let ca ←
      match task.completedAt with
      | none => some none
      | some c => (jsToISOString c).map some
    some { id := task.id, patientId := task.patientId, type := task.type,
           status := task.status, dueStart := ds, dueEnd := de,
           completedAt := ca, completedBy := task.completedBy, notes := task.notes })

/-- `deserializeTasksFromStorage`: parse the ISO strings back into Dates. -/
def deserializeTasksFromStorage (stored : List StoredTask) : List Task :=
  stored.map (fun task =>
    { id := task.id, patientId := task.patientId, type := task.type, status := task.status,
      dueStart := dateFromFields task.dueStart,
      dueEnd := dateFromFields task.dueEnd,
      completedAt := task.completedAt.map dateFromFields,
      completedBy := task.completedBy, notes := task.notes })

/-- A date that an in-range JS `Date` object can hold. -/
def ValidDate (d : JSDate) : Prop :=
  ∃ t : Int, d = some t ∧ t.natAbs ≤ 8640000000000000

/-- A task whose timestamp fields are all representable Dates. -/
def ValidTask (t : Task) : Prop :=
  ValidDate t.dueStart ∧ ValidDate t.dueEnd ∧
    ∀ c, t.completedAt = some c → ValidDate c

/-! ## Helper lemmas -/

theorem calculateTaskStatus_eq (task : Task) (n s e : Int)
    (hst : task.status ≠ TaskStatus.completed)
    (hs : task.dueStart = some s) (he : task.dueEnd = some e) :
    calculateTaskStatus task (some n) =
      if n < s then TaskStatus.upcoming
      else if e < n then TaskStatus.overdue
      else TaskStatus.pending := by
  unfold calculateTaskStatus
  rw [hs, he, if_neg hst]
  unfold jsLt jsGt
  by_cases h1 : n < s
  · rw [if_pos (by simpa using h1), if_pos h1]
  · rw [if_neg (by simpa using h1), if_neg h1]
    by_cases h2 : e < n
    · rw [if_pos (by simpa using h2), if_pos h2]
    · rw [if_neg (by simpa using h2), if_neg h2]

theorem completeTask_status_cases (task : Task) (completedBy : Option String) (now : JSDate) :
    (calculateTaskStatus task now = TaskStatus.completed ∧
      completeTask task completedBy now =
        { success := false, error := some "Task is already completed" }) ∨
    (calculateTaskStatus task now = TaskStatus.upcoming ∧
      completeTask task completedBy now =
        { success := false, error := some "Cannot complete a task before its window opens" }) ∨
    ((calculateTaskStatus task now = TaskStatus.pending ∨
        calculateTaskStatus task now = TaskStatus.overdue) ∧
      completeTask task completedBy now =
        { success := true,
          task := some { task with
            status := TaskStatus.completed, completedAt := some now,
            completedBy := completedBy } }) := by
  unfold completeTask
  cases h : calculateTaskStatus task now
  · exact Or.inr (Or.inr ⟨Or.inl rfl, rfl⟩)
  · exact Or.inl ⟨rfl, rfl⟩
  · exact Or.inr (Or.inr ⟨Or.inr rfl, rfl⟩)
  · exact Or.inr (Or.inl ⟨rfl, rfl⟩)

/-! ## Claim theorems -/

/-- C2: for a non-completed task with dueStart = s ≤ e = dueEnd, both
window bounds are inclusive: the derived status at now = s and now = e is
pending, at e + 1 ms it is overdue, and at s - 1 ms it is upcoming. -/
theorem calculateTaskStatus_boundary_inclusive (task : Task) (s e : Int)
    (hst : task.status ≠ TaskStatus.completed)
    (hs : task.dueStart = some s) (he : task.dueEnd = some e) (hle : s ≤ e) :
    calculateTaskStatus task (some s) = TaskStatus.pending ∧
    calculateTaskStatus task (some e) = TaskStatus.pending ∧
    calculateTaskStatus task (some (e + 1)) = TaskStatus.overdue ∧
    calculateTaskStatus task (some (s - 1)) = TaskStatus.upcoming := by
  rw [calculateTaskStatus_eq task s s e hst hs he,
    calculateTaskStatus_eq task e s e hst hs he,
    calculateTaskStatus_eq task (e + 1) s e hst hs he,
    calculateTaskStatus_eq task (s - 1) s e hst hs he]
  refine ⟨?_, ?_, ?_, ?_⟩
  · rw [if_neg (by omega), if_neg (by omega)]
  · rw [if_neg (by omega), if_neg (by omega)]
  · rw [if_neg (by omega), if_pos (by omega)]
  · rw [if_pos (by omega)]

/-- Witness for C2 at a concrete task with window [0, 86400000]. -/
def sampleTask : Task :=
  { id := "task_1", patientId := "MRN0001", type := TaskType.contact_patient,
    status := TaskStatus.pending, dueStart := some 0, dueEnd := some 86400000 }

theorem calculateTaskStatus_boundary_inclusive_witness :
    sampleTask.status ≠ TaskStatus.completed ∧ (0 : Int) ≤ 86400000 ∧
    (calculateTaskStatus sampleTask (some 0) = TaskStatus.pending ∧
     calculateTaskStatus sampleTask (some 86400000) = TaskStatus.pending ∧
     calculateTaskStatus sampleTask (some (86400000 + 1)) = TaskStatus.overdue ∧
     calculateTaskStatus sampleTask (some (0 - 1)) = TaskStatus.upcoming) :=
  ⟨by decide, by decide,
    calculateTaskStatus_boundary_inclusive sampleTask 0 86400000 (by decide) rfl rfl
      (by decide)⟩

/-- C3: the status derivation is total — it always yields one of the four
statuses — and completed is sticky: a task persisted as completed derives
completed at every now. -/
theorem calculateTaskStatus_total_sticky (task : Task) (now : JSDate) :
    (calculateTaskStatus task now = TaskStatus.upcoming ∨
     calculateTaskStatus task now = TaskStatus.pending ∨
     calculateTaskStatus task now = TaskStatus.overdue ∨
     calculateTaskStatus task now = TaskStatus.completed) ∧
    (task.status = TaskStatus.completed →
      calculateTaskStatus task now = TaskStatus.completed) := by
  constructor
  · cases h : calculateTaskStatus task now
    · exact Or.inr (Or.inl rfl)
    · exact Or.inr (Or.inr (Or.inr rfl))
    · exact Or.inr (Or.inr (Or.inl rfl))
    · exact Or.inl rfl
  · intro h
    unfold calculateTaskStatus
    rw [if_pos h]

theorem calculateTaskStatus_total_sticky_witness :
    ({ sampleTask with status := TaskStatus.completed } : Task).status =
        TaskStatus.completed ∧
    calculateTaskStatus { sampleTask with status := TaskStatus.completed } (some 5) =
      TaskStatus.completed :=
  ⟨rfl,
    (calculateTaskStatus_total_sticky { sampleTask with status := TaskStatus.completed }
      (some 5)).2 rfl⟩

/-- C1: the guarded completion succeeds iff the derived status is pending
or overdue; it fails with the already-completed error iff the derived
status is completed, and with the window-not-open error iff the derived
status is upcoming; failures carry an error value and no task, and
success returns the completed copy with completedAt = now and the given
completedBy. -/
theorem completeTask_guard (task : Task) (completedBy : Option String) (now : JSDate) :
    ((completeTask task completedBy now).success = true ↔
      (calculateTaskStatus task now = TaskStatus.pending ∨
       calculateTaskStatus task now = TaskStatus.overdue)) ∧
    (((completeTask task completedBy now).success = false ∧
      (completeTask task completedBy now).error = some "Task is already completed") ↔
      calculateTaskStatus task now = TaskStatus.completed) ∧
    (((completeTask task completedBy now).success = false ∧
      (completeTask task completedBy now).error =
        some "Cannot complete a task before its window opens") ↔
      calculateTaskStatus task now = TaskStatus.upcoming) ∧
    ((completeTask task completedBy now).success = false →
      (completeTask task completedBy now).task = none ∧
      (completeTask task completedBy now).error ≠ none) ∧
    ((completeTask task completedBy now).success = true →
      (completeTask task completedBy now).task =
        some { task with
          status := TaskStatus.completed, completedAt := some now,
          completedBy := completedBy } ∧
      (completeTask task completedBy now).error = none) := by
  rcases completeTask_status_cases task completedBy now with ⟨hst, hres⟩ | ⟨hst, hres⟩ |
    ⟨hst, hres⟩
  · rw [hres, hst]
    refine ⟨by simp, by simp, by simp, by simp, by simp⟩
  · rw [hres, hst]
    refine ⟨by simp, by simp, by simp, by simp, by simp⟩
  · rw [hres]
    rcases hst with hst | hst <;> rw [hst] <;>
      exact ⟨by simp, by simp, by simp, by simp, by simp⟩

theorem completeTask_guard_witness :
    ((completeTask sampleTask (some "Nurse A") (some 50)).success = true ↔
      (calculateTaskStatus sampleTask (some 50) = TaskStatus.pending ∨
       calculateTaskStatus sampleTask (some 50) = TaskStatus.overdue)) ∧
    (completeTask sampleTask (some "Nurse A") (some 50)).success = true :=
  ⟨(completeTask_guard sampleTask (some "Nurse A") (some 50)).1, by decide⟩

/-- C8: the bulk status refresh preserves length and order, keeps every
field of every element except status, and sets each status to the value
derived at now. -/
theorem updateTaskStatuses_frame (tasks : List Task) (now : JSDate) :
    (updateTaskStatuses tasks now).length = tasks.length ∧
    ∀ (i : Nat) (t : Task), tasks[i]? = some t →
      (updateTaskStatuses tasks now)[i]? =
        some { t with status := calculateTaskStatus t now } := by
  constructor
  · exact List.length_map tasks _
  · intro i t ht
    unfold updateTaskStatuses
    rw [List.getElem?_map, ht, Option.map_some']

theorem updateTaskStatuses_frame_witness :
    ([sampleTask] : List Task)[0]? = some sampleTask ∧
    (updateTaskStatuses [sampleTask] (some 86400001))[0]? =
      some { sampleTask with status := calculateTaskStatus sampleTask (some 86400001) } :=
  ⟨rfl, (updateTaskStatuses_frame [sampleTask] (some 86400001)).2 0 sampleTask rfl⟩

/-- C9: the remaining time is the signed difference dueEnd - now, and the
formatted form floors the absolute remaining duration to whole minutes,
splitting them into hours and remainder minutes (hours * 60 + minutes =
totalMinutes), with the overdue flag exactly when the signed remaining
duration is negative. -/
theorem getTimeRemaining_spec (task : Task) (e n : Int) (he : task.dueEnd = some e) :
    getTimeRemaining task (some n) = some (e - n) ∧
    getTimeRemainingFormatted task (some n) =
      { hours := some (|e - n| / 60000 / 60), minutes := some (|e - n| / 60000 % 60),
        isOverdue := decide (e - n < 0), totalMinutes := some (|e - n| / 60000) } ∧
    |e - n| / 60000 / 60 * 60 + |e - n| / 60000 % 60 = |e - n| / 60000 ∧
    ((getTimeRemainingFormatted task (some n)).isOverdue = true ↔ e - n < 0) := by
  have h1 : getTimeRemaining task (some n) = some (e - n) := by
    unfold getTimeRemaining jsDiff
    rw [he]
  have h2 : getTimeRemainingFormatted task (some n) =
      { hours := some (|e - n| / 60000 / 60), minutes := some (|e - n| / 60000 % 60),
        isOverdue := decide (e - n < 0), totalMinutes := some (|e - n| / 60000) } := by
    unfold getTimeRemainingFormatted
    rw [h1]
    norm_num
  refine ⟨h1, h2, ?_, ?_⟩
  · omega
  · rw [h2]
    simp

theorem getTimeRemaining_spec_witness :
    sampleTask.dueEnd = some 86400000 ∧
    getTimeRemaining sampleTask (some 90000000) = some (86400000 - 90000000) ∧
    ((getTimeRemainingFormatted sampleTask (some 90000000)).isOverdue = true ↔
      (86400000 : Int) - 90000000 < 0) :=
  ⟨rfl, (getTimeRemaining_spec sampleTask 86400000 90000000 rfl).1,
    (getTimeRemaining_spec sampleTask 86400000 90000000 rfl).2.2.2⟩

/-- C10: the completed-in-range query is total and selects exactly the
tasks whose status is completed and whose completedAt is a valid date in
the closed range; completed tasks with an absent (or invalid) completedAt
are silently excluded. -/
theorem getTasksCompletedInRange_mem (tasks : List Task) (s e : Int) (t : Task) :
    (t ∈ getTasksCompletedInRange tasks (some s) (some e) ↔
      t ∈ tasks ∧ t.status = TaskStatus.completed ∧
        ∃ c : Int, t.completedAt = some (some c) ∧ s ≤ c ∧ c ≤ e) ∧
    (∀ (now : JSDate) (u : Task), u ∈ getTasksCompletedToday tasks now →
      u.status = TaskStatus.completed ∧ u.completedAt ≠ none) := by
  have key : ∀ (sd ed : JSDate) (u : Task), u ∈ getTasksCompletedInRange tasks sd ed →
      u.status = TaskStatus.completed ∧ u.completedAt ≠ none := by
    intro sd ed u hmem
    unfold getTasksCompletedInRange at hmem
    rw [List.mem_filter] at hmem
    obtain ⟨_, hp⟩ := hmem
    by_cases hst : u.status = TaskStatus.completed
    · refine ⟨hst, ?_⟩
      rw [if_neg (by simp [hst])] at hp
      cases hca : u.completedAt with
      | none => rw [hca] at hp; exact absurd hp (by simp)
      | some c => simp [hca]
    · rw [if_pos (by simp [hst])] at hp
      exact absurd hp (by simp)
  refine ⟨?_, ?_⟩
  swap
  · intro now u hu
    cases now with
    | some tnow => exact key _ _ u (by simpa [getTasksCompletedToday] using hu)
    | none => exact key _ _ u (by simpa [getTasksCompletedToday] using hu)
  unfold getTasksCompletedInRange
  rw [List.mem_filter]
  constructor
  · rintro ⟨hmem, hp⟩
    refine ⟨hmem, ?_⟩
    by_cases hst : t.status = TaskStatus.completed
    · refine ⟨hst, ?_⟩
      rw [if_neg (by simp [hst])] at hp
      match hca : t.completedAt with
      | none => rw [hca] at hp; exact absurd hp (by simp)
      | some none => rw [hca] at hp; exact absurd hp (by simp [jsLe])
      | some (some c) =>
        rw [hca] at hp
        simp only [jsLe, Bool.and_eq_true, decide_eq_true_eq] at hp
        exact ⟨c, rfl, hp.1, hp.2⟩
    · rw [if_pos (by simp [hst])] at hp
      exact absurd hp (by simp)
  · rintro ⟨hmem, hst, c, hca, h1, h2⟩
    refine ⟨hmem, ?_⟩
    rw [if_neg (by simp [hst]), hca]
    simp [jsLe, h1, h2]

/-- C5: the by-id completion over a collection is total; when no element
carries the id it returns the original collection with a not-found error;
when the guard rejects it returns the original collection with that
error; and when the guard succeeds it returns a copy equal everywhere
except at the matching index, which holds the completed task. -/
theorem completeTaskInCollection_spec (tasks : List Task) (taskId : String)
    (completedBy : Option String) (now : JSDate) :
    ((∀ t ∈ tasks, t.id ≠ taskId) →
      completeTaskInCollection tasks taskId completedBy now =
        (tasks, { success := false, task := none,
                  error := some ("Task with ID \x27" ++ taskId ++ "\x27 not found") })) ∧
    (∀ (i : Nat), tasks.findIdx? (fun t => t.id == taskId) = some i →
      ∀ (t : Task), tasks[i]? = some t →
        ((completeTask t completedBy now).success = false →
          completeTaskInCollection tasks taskId completedBy now =
            (tasks, completeTask t completedBy now)) ∧
        ((completeTask t completedBy now).success = true →
          (completeTaskInCollection tasks taskId completedBy now).2 =
            completeTask t completedBy now ∧
          (completeTaskInCollection tasks taskId completedBy now).1.length = tasks.length ∧
          (∀ (j : Nat), j ≠ i →
            (completeTaskInCollection tasks taskId completedBy now).1[j]? = tasks[j]?) ∧
          (completeTaskInCollection tasks taskId completedBy now).1[i]? =
            some { t with
              status := TaskStatus.completed, completedAt := some now,
              completedBy := completedBy })) := by
  constructor
  · intro hno
    have hnone : tasks.findIdx? (fun t => t.id == taskId) = none := by
      rw [List.findIdx?_eq_none_iff]
      intro x hx
      simp [hno x hx]
    unfold completeTaskInCollection
    rw [hnone]
  · intro i hfind t hget
    have hlen : i < tasks.length := by
      rcases List.findIdx?_eq_some_iff_getElem.mp hfind with ⟨h, _, _⟩
      exact h
    rcases completeTask_status_cases t completedBy now with ⟨_, hres⟩ | ⟨_, hres⟩ |
      ⟨_, hres⟩
    · constructor
      · intro _
        unfold completeTaskInCollection
        simp only [hfind, hget, hres]
      · intro hsucc
        rw [hres] at hsucc
        exact absurd hsucc (by simp)
    · constructor
      · intro _
        unfold completeTaskInCollection
        simp only [hfind, hget, hres]
      · intro hsucc
        rw [hres] at hsucc
        exact absurd hsucc (by simp)
    · constructor
      · intro hfail
        rw [hres] at hfail
        exact absurd hfail (by simp)
      · intro _
        have hcoll : completeTaskInCollection tasks taskId completedBy now =
            (tasks.set i { t with
              status := TaskStatus.completed, completedAt := some now,
              completedBy := completedBy }, completeTask t completedBy now) := by
          unfold completeTaskInCollection
          simp only [hfind, hget, hres]
        rw [hcoll]
        refine ⟨rfl, List.length_set tasks _ _ ▸ rfl, ?_, ?_⟩
        · intro j hj
          exact List.getElem?_set_ne (by omega)
        · exact List.getElem?_set_self hlen

def sampleTaskB : Task :=
  { id := "task_2", patientId := "MRN0001", type := TaskType.medication_reconciliation,
    status := TaskStatus.pending, dueStart := some 0, dueEnd := some 172800000 }

theorem completeTaskInCollection_spec_witness :
    ([sampleTask, sampleTaskB].findIdx? (fun t => t.id == "task_2") = some 1) ∧
    ([sampleTask, sampleTaskB] : List Task)[1]? = some sampleTaskB ∧
    (completeTask sampleTaskB (some "Nurse A") (some 50)).success = true ∧
    (completeTaskInCollection [sampleTask, sampleTaskB] "task_2" (some "Nurse A")
        (some 50)).1[1]? =
      some { sampleTaskB with
        status := TaskStatus.completed, completedAt := some (some 50),
        completedBy := some "Nurse A" } :=
  ⟨by decide, by decide, by decide,
    (((completeTaskInCollection_spec [sampleTask, sampleTaskB] "task_2" (some "Nurse A")
        (some 50)).2 1 (by decide) sampleTaskB (by decide)).2 (by decide)).2.2.2⟩

/-- Subject of the generation scenario: discharged 2026-01-14 10:00,
disposition Home, risk Low. -/
def patientHomeLow : Patient :=
  { patientId := "MRN0001", dischargeDate := "2026-01-14", dischargeTime := some "10:00",
    dischargeDisposition := "Home", readmissionRiskScore := "Low" }

/-- The same subject with High readmission risk. -/
def patientHomeHigh : Patient := { patientHomeLow with readmissionRiskScore := "High" }

/-- The same subject with Very High readmission risk. -/
def patientHomeVeryHigh : Patient :=
  { patientHomeLow with readmissionRiskScore := "Very High" }

/-- C4: for the Home/Low subject the generator yields exactly the three
base tasks with windows 10:00–10:00+24h and 10:00–10:00+48h (epoch ms:
2026-01-14T10:00 = 1768384800000), omitting facility_handoff and
checkin_call; with High or Very High risk, checkin_call is additionally
present with the 48–72h window; and in general every generated task's
window is the parsed discharge date-time plus the rule offsets in hours. -/
theorem generateTasksForPatient_scenario (mkId : Nat → String) :
    generateTasksForPatient patientHomeLow mkId =
      [ { id := mkId 0, patientId := "MRN0001", type := TaskType.contact_patient,
          status := TaskStatus.pending, dueStart := some 1768384800000,
          dueEnd := some 1768471200000 },
        { id := mkId 1, patientId := "MRN0001", type := TaskType.medication_reconciliation,
          status := TaskStatus.pending, dueStart := some 1768384800000,
          dueEnd := some 1768557600000 },
        { id := mkId 2, patientId := "MRN0001", type := TaskType.followup_scheduling,
          status := TaskStatus.pending, dueStart := some 1768384800000,
          dueEnd := some 1768557600000 } ] ∧
    generateTasksForPatient patientHomeHigh mkId =
      [ { id := mkId 0, patientId := "MRN0001", type := TaskType.contact_patient,
          status := TaskStatus.pending, dueStart := some 1768384800000,
          dueEnd := some 1768471200000 },
        { id := mkId 1, patientId := "MRN0001", type := TaskType.medication_reconciliation,
          status := TaskStatus.pending, dueStart := some 1768384800000,
          dueEnd := some 1768557600000 },
        { id := mkId 2, patientId := "MRN0001", type := TaskType.followup_scheduling,
          status := TaskStatus.pending, dueStart := some 1768384800000,
          dueEnd := some 1768557600000 },
        { id := mkId 3, patientId := "MRN0001", type := TaskType.checkin_call,
          status := TaskStatus.pending, dueStart := some 1768557600000,
          dueEnd := some 1768644000000 } ] ∧
    generateTasksForPatient patientHomeVeryHigh mkId =
      generateTasksForPatient patientHomeHigh mkId ∧
    (∀ (p : Patient) (t : Task), t ∈ generateTasksForPatient p mkId →
      ∃ r ∈ TASK_RULES, r.condition p = true ∧ t.type = r.type ∧
        t.status = TaskStatus.pending ∧ t.patientId = p.patientId ∧
        t.dueStart =
          jsAddMs (getDischargeDateTime p) ((r.windowStartHours : Int) * 60 * 60 * 1000) ∧
        t.dueEnd =
          jsAddMs (getDischargeDateTime p) ((r.windowEndHours : Int) * 60 * 60 * 1000)) := by
  refine ⟨rfl, rfl, rfl, ?_⟩
  intro p t ht
  simp only [generateTasksForPatient] at ht
  rw [List.mem_map] at ht
  obtain ⟨ir, hir, rfl⟩ := ht
  obtain ⟨i, r⟩ := ir
  have h2 : (TASK_RULES.filter (fun rule => rule.condition p))[i]? = some r :=
    List.mk_mem_enum_iff_getElem?.mp hir
  have h3 : r ∈ TASK_RULES.filter (fun rule => rule.condition p) :=
    List.getElem?_mem h2
  rw [List.mem_filter] at h3
  exact ⟨r, h3.1, h3.2, rfl, rfl, rfl, rfl, rfl⟩

theorem generateTasksForPatient_scenario_witness :
    generateTasksForPatient patientHomeLow toString =
      [ { id := toString 0, patientId := "MRN0001", type := TaskType.contact_patient,
          status := TaskStatus.pending, dueStart := some 1768384800000,
          dueEnd := some 1768471200000 },
        { id := toString 1, patientId := "MRN0001", type := TaskType.medication_reconciliation,
          status := TaskStatus.pending, dueStart := some 1768384800000,
          dueEnd := some 1768557600000 },
        { id := toString 2, patientId := "MRN0001", type := TaskType.followup_scheduling,
          status := TaskStatus.pending, dueStart := some 1768384800000,
          dueEnd := some 1768557600000 } ] :=
  (generateTasksForPatient_scenario toString).1

/-- Subject with an unparseable discharge date. -/
def malformedPatient : Patient :=
  { patientId := "MRN0002", dischargeDate := "not-a-date", dischargeTime := none,
    dischargeDisposition := "Home", readmissionRiskScore := "Low" }

/-- C7 counterexample: on a subject with an unparseable discharge date the
generator does not report any error — its return type has no error
channel and it yields the usual three tasks, whose windows are Invalid
Dates; the batch form likewise returns them without failing. -/
theorem generateTasks_malformed_counterexample :
    getDischargeDateTime malformedPatient = none ∧
    generateTasksForPatient malformedPatient (fun n => toString n) =
      [ { id := "0", patientId := "MRN0002", type := TaskType.contact_patient,
          status := TaskStatus.pending, dueStart := none, dueEnd := none },
        { id := "1", patientId := "MRN0002", type := TaskType.medication_reconciliation,
          status := TaskStatus.pending, dueStart := none, dueEnd := none },
        { id := "2", patientId := "MRN0002", type := TaskType.followup_scheduling,
          status := TaskStatus.pending, dueStart := none, dueEnd := none } ] ∧
    generateTasksForPatients [malformedPatient] (fun i j => toString i ++ toString j) =
      [ { id := "00", patientId := "MRN0002", type := TaskType.contact_patient,
          status := TaskStatus.pending, dueStart := none, dueEnd := none },
        { id := "01", patientId := "MRN0002", type := TaskType.medication_reconciliation,
          status := TaskStatus.pending, dueStart := none, dueEnd := none },
        { id := "02", patientId := "MRN0002", type := TaskType.followup_scheduling,
          status := TaskStatus.pending, dueStart := none, dueEnd := none } ] := by
  refine ⟨rfl, rfl, rfl⟩

/-- C7 amended: generation is total — it always yields one task per
satisfied rule and never reports an input error; when the reference
date-time is unparseable the tasks are produced anyway, with Invalid
Date windows. -/
theorem generateTasks_malformed_behavior (p : Patient) (mkId : Nat → String) :
    (generateTasksForPatient p mkId).length =
      (TASK_RULES.filter (fun rule => rule.condition p)).length ∧
    (getDischargeDateTime p = none →
      ∀ t ∈ generateTasksForPatient p mkId, t.dueStart = none ∧ t.dueEnd = none) := by
  constructor
  · simp [generateTasksForPatient]
  · intro h t ht
    simp only [generateTasksForPatient] at ht
    rw [List.mem_map] at ht
    obtain ⟨ir, hir, rfl⟩ := ht
    simp [jsAddMs, h]

theorem generateTasks_malformed_behavior_witness :
    getDischargeDateTime malformedPatient = none ∧
    ∀ t ∈ generateTasksForPatient malformedPatient (fun n => toString n),
      t.dueStart = none ∧ t.dueEnd = none :=
  ⟨rfl,
    (generateTasks_malformed_behavior malformedPatient (fun n => toString n)).2 rfl⟩

/-- A valid date can be ISO-serialized and parsed back to the same value. -/
theorem jsToISOString_valid (d : JSDate) (hv : ValidDate d) :
    ∃ t : Int, d = some t ∧ t.natAbs ≤ 8640000000000000 ∧
      jsToISOString d = some (toISOFields t) ∧ dateFromFields (toISOFields t) = some t := by
  obtain ⟨t, rfl, hb⟩ := hv
  exact ⟨t, rfl, hb, by simp [jsToISOString, hb], toISOFields_roundtrip t hb⟩

/-- C6: serializing a collection of tasks whose timestamps are actual
(in-range) Dates and deserializing the result restores the collection
field for field, timestamps at exact millisecond precision included. -/
theorem serialize_deserialize_roundtrip (tasks : List Task)
    (h : ∀ t ∈ tasks, ValidTask t) :
    (serializeTasksForStorage tasks).map deserializeTasksFromStorage = some tasks := by
  induction tasks with
  | nil => rfl
  | cons a l ih =>
    obtain ⟨hv1, hv2, hvc⟩ := h a (List.mem_cons_self a l)
    obtain ⟨t1, he1, hb1, hs1, hr1⟩ := jsToISOString_valid a.dueStart hv1
    obtain ⟨t2, he2, hb2, hs2, hr2⟩ := jsToISOString_valid a.dueEnd hv2
    have hih := ih (fun t ht => h t (List.mem_cons_of_mem a ht))
    obtain ⟨st, hst⟩ : ∃ st, serializeTasksForStorage l = some st := by
      cases hsl : serializeTasksForStorage l with
      | none => rw [hsl] at hih; exact absurd hih (by simp)
      | some st => exact ⟨st, rfl⟩
    have hdst : deserializeTasksFromStorage st = l := by
      rw [hst] at hih
      simpa using hih
    cases hca : a.completedAt with
    | none =>
      have hser : serializeTasksForStorage (a :: l) = some
          ({ id := a.id, patientId := a.patientId, type := a.type, status := a.status,
             dueStart := toISOFields t1, dueEnd := toISOFields t2, completedAt := none,
             completedBy := a.completedBy, notes := a.notes } :: st) := by
        unfold serializeTasksForStorage at hst ⊢
        rw [List.mapM_cons, hst]
        simp only [hs1, hs2, hca, Option.bind_some, Option.some_bind, Option.bind_eq_bind]
        rfl
      rw [hser, Option.map_some']
      unfold deserializeTasksFromStorage at hdst ⊢
      rw [List.map_cons, hdst]
      simp only [Option.map_none']
      congr 1
      rw [hr1, hr2, ← he1, ← he2, ← hca]
    | some c =>
      obtain ⟨t3, he3, hb3, hs3, hr3⟩ := jsToISOString_valid c (hvc c hca)
      have hser : serializeTasksForStorage (a :: l) = some
          ({ id := a.id, patientId := a.patientId, type := a.type, status := a.status,
             dueStart := toISOFields t1, dueEnd := toISOFields t2,
             completedAt := some (toISOFields t3),
             completedBy := a.completedBy, notes := a.notes } :: st) := by
        unfold serializeTasksForStorage at hst ⊢
        rw [List.mapM_cons, hst]
        simp only [hs1, hs2, hca, hs3, Option.bind_some, Option.some_bind,
          Option.bind_eq_bind, Option.map_some']
        rfl
      rw [hser, Option.map_some']
      unfold deserializeTasksFromStorage at hdst ⊢
      rw [List.map_cons, hdst]
      simp only [Option.map_some']
      congr 1
      rw [hr1, hr2, hr3, ← he1, ← he2, ← he3, ← hca]

/-- Sample completed task with valid timestamps, for the round-trip witness. -/
def sampleCompleted : Task :=
  { id := "task_3", patientId := "MRN0001", type := TaskType.contact_patient,
    status := TaskStatus.completed, dueStart := some 0, dueEnd := some 86400000,
    completedAt := some (some 1768384800000), completedBy := some "Nurse A",
    notes := some "done" }

theorem serialize_deserialize_roundtrip_witness :
    (∀ t ∈ [sampleCompleted], ValidTask t) ∧
    (serializeTasksForStorage [sampleCompleted]).map deserializeTasksFromStorage =
      some [sampleCompleted] := by
  have hv : ∀ t ∈ [sampleCompleted], ValidTask t := by
    intro t ht
    rw [List.mem_singleton] at ht
    subst ht
    refine ⟨⟨0, rfl, by norm_num⟩, ⟨86400000, rfl, by norm_num⟩, ?_⟩
    intro c hc
    injection hc with hc
    exact ⟨1768384800000, hc.symm, by norm_num⟩
  exact ⟨hv, serialize_deserialize_roundtrip [sampleCompleted] hv⟩

end DischargeFlow
